import Mathlib

/-!
Verification of the scheduling and reconciliation engine of the gpu-proxy
repository (`src/core/schedule_manager.py` and `src/core/vast_client.py`).

The Python code is shallowly embedded as follows.

* Instants are `Int` seconds (UTC).  A timezone-aware Python `datetime`
  denotes an absolute instant, so `astimezone` conversions do not change the
  value; the wall-clock dependence of cron evaluation is captured by passing
  the schedule's timezone string to the abstract cron function.
* A schedule record (a row of the `pod_schedules` table) is a `Schedule`.
  `last_run_time` is stored already parsed (the code writes `isoformat` and
  re-parses it, which round-trips).  Instance handles are `Int`
  (`new_contract` values; the code stores `str(new_contract)` and compares
  with `str(...)` on both sides, which is injective on integers).
* External collaborators (the Vast.ai SDK via `VastClient`, `croniter`,
  `pytz`) are modelled by an `Env` record.  Fallible calls return
  `Except String _`; an `Except.error` value denotes the call raising an
  exception.  `getPrev e tz t` is `croniter(e, local_now).get_prev(datetime)`
  for the instant `t` viewed in timezone `tz`; `Except.error` is an
  unparseable cron expression.  `validTz tz = false` means
  `pytz.timezone(tz)` raises `UnknownTimeZoneError`.
* Database writes (`.update(...).eq("id", ...)`) are pure transformations of
  the row list and are modelled as always succeeding; database reads are
  likewise modelled as succeeding (no claim concerns persistence failures).
-/

namespace GpuProxy

/-- One entry of the provider listing returned by
`VastClient.show_instances` (the fields the scheduler reads). -/
structure InstanceInfo where
  id : Int
  status : String
deriving DecidableEq, Repr

/-- One entry of the offer list returned by `VastClient.search_offers`. -/
structure Offer where
  id : Int
deriving DecidableEq, Repr

/-- The search query built by `ScheduleManager._start_instance`
(`search_params`). -/
structure SearchParams where
  gpu_name : String
  num_gpus : Int
  order : String
  max_price : Option Int
deriving DecidableEq, Repr

/-- The creation request built by `ScheduleManager._start_instance`
(`instance_params`, including the chosen offer id). -/
structure InstanceParams where
  image : String
  disk : Int
  label : String
  num_gpus : Int
  docker_args : Option String
  offer_id : Int
deriving DecidableEq, Repr

/-- A row of the `pod_schedules` table, with the `schedule.get(...)`
defaults already applied (`disk_size` 50, `num_gpus` 1, `use_ssh` true,
`timezone` "UTC").  `none` in `start_schedule` / `stop_schedule` /
`last_instance_id` / `last_run_time` is a missing or falsy value. -/
structure Schedule where
  id : String
  name : String
  docker_image : String
  start_schedule : Option String
  stop_schedule : Option String
  timezone : String
  is_active : Bool
  gpu_type : String
  num_gpus : Int
  disk_size : Int
  max_price_per_hour : Option Int
  use_ssh : Bool
  last_instance_id : Option Int
  last_run_time : Option Int
  updated_at : Int
deriving DecidableEq, Repr

/-- The external collaborators visible to one sweep: the Vast.ai SDK calls
made through `VastClient`, `croniter`, and `pytz`.  Each field is the (fixed)
behaviour of that call during the sweep. -/
structure Env where
  show_instances : Except String (List InstanceInfo)
  getPrev : String → String → Int → Except String Int
  validTz : String → Bool
  search_offers : SearchParams → Except String (List Offer)
  create_instance : InstanceParams → Except String (Option Int)
  stop_instance : Int → Except String Bool

/-- The sweep result dict of `ScheduleManager.check_pending_actions`:
`{"started": [...], "stopped": [...]}`. -/
structure Outcome where
  started : List String
  stopped : List String
deriving DecidableEq, Repr

/-- Lines 343–354 of `_should_start`: scan the provider listing for the
schedule's `last_instance_id` with status `"running"`.  A listing failure is
caught (`logger.warning`) and the scan yields no match. -/
def running_observed (env : Env) (s : Schedule) : Bool :=
  match s.last_instance_id with
  | none => false
  | some iid =>
    match env.show_instances with
    | Except.error _ => false
    | Except.ok l => l.any (fun i => i.id == iid && i.status == "running")

/-- Embedding of `ScheduleManager._should_start` (schedule_manager.py
312–377).  Any exception inside the body is caught and yields `false`:
a missing/falsy `start_schedule`, an inactive schedule, an invalid timezone
while converting a present `last_run_time`, or an unparseable cron
expression.  `now` is the sweep's reference instant. -/
def should_start (env : Env) (s : Schedule) (now : Int) : Bool :=
  match s.start_schedule with
  | none => false
  | some startCron =>
    if s.is_active = false then false
    else if s.last_run_time.isSome && !(env.validTz s.timezone) then false
    else if running_observed env s then false
    else
      match env.getPrev startCron s.timezone now with
      | Except.error _ => false
      | Except.ok prevRun =>
        if now - prevRun ≤ 120 then
          match s.last_run_time with
          | none => true
          | some lastRun => decide (now - lastRun ≥ 3600)
        else false

/-- Embedding of `ScheduleManager._should_stop` (schedule_manager.py
379–439).  The probe block (407–421) differs from the start path: when the
listing succeeds and the tracked instance is not running it returns `false`,
but when the listing raises the exception is caught and the check proceeds
("Assume instance is running if we can't check"). -/
def should_stop (env : Env) (s : Schedule) (now : Int) : Bool :=
  match s.stop_schedule with
  | none => false
  | some stopCron =>
    if s.is_active = false then false
    else
      match s.last_instance_id with
      | none => false
      | some iid =>
        let proceed : Bool :=
          match env.show_instances with
          | Except.error _ => true
          | Except.ok l => l.any (fun i => i.id == iid && i.status == "running")
        if proceed = false then false
        else
          match env.getPrev stopCron s.timezone now with
          | Except.error _ => false
          | Except.ok prevRun => decide (now - prevRun ≤ 120)

/-- The `search_params` dict built at lines 467–475 of `_start_instance`. -/
def buildSearchParams (s : Schedule) : SearchParams :=
  { gpu_name := s.gpu_type
    num_gpus := s.num_gpus
    order := "score-"
    max_price := s.max_price_per_hour }

/-- The `instance_params` dict built at lines 453–463 and 485 of
`_start_instance`. -/
def buildInstanceParams (s : Schedule) (offerId : Int) : InstanceParams :=
  { image := s.docker_image
    disk := s.disk_size
    label := s.name
    num_gpus := s.num_gpus
    docker_args := if s.use_ssh then some "-p 22:22" else none
    offer_id := offerId }

/-- The database write at lines 496–502 of `_start_instance`:
`update({last_instance_id, last_run_time, updated_at}).eq("id", sid)`. -/
def dbUpdateStart (db : List Schedule) (sid : String) (h : Int) (now : Int) :
    List Schedule :=
  db.map (fun r =>
    if r.id = sid then
      { r with last_instance_id := some h, last_run_time := some now,
               updated_at := now }
    else r)

/-- The database write at lines 535–539 of `_stop_instance`:
`update({updated_at}).eq("id", sid)`. -/
def dbUpdateStop (db : List Schedule) (sid : String) (now : Int) :
    List Schedule :=
  db.map (fun r => if r.id = sid then { r with updated_at := now } else r)

/-- Embedding of `ScheduleManager._start_instance` (441–508): search for
offers, take the first, create an instance, and on success persist the new
handle and run time.  Returns the success flag and the database after the
call; every exception is caught and yields `(false, db)` with no write. -/
def start_instance (env : Env) (db : List Schedule) (s : Schedule)
    (now : Int) : Bool × List Schedule :=
  match env.search_offers (buildSearchParams s) with
  | Except.error _ => (false, db)
  | Except.ok [] => (false, db)
  | Except.ok (o :: _) =>
    match env.create_instance (buildInstanceParams s o.id) with
    | Except.error _ => (false, db)
    | Except.ok none => (false, db)
    | Except.ok (some h) => (true, dbUpdateStart db s.id h now)

/-- Embedding of `ScheduleManager._stop_instance` (510–545): request a stop
of the tracked handle and on a truthy response persist `updated_at`.
`Except.error` (an SDK exception) and `Except.ok false` (a falsy response)
both yield `(false, db)`. -/
def stop_instance (env : Env) (db : List Schedule) (s : Schedule)
    (now : Int) : Bool × List Schedule :=
  match s.last_instance_id with
  | none => (false, db)
  | some iid =>
    match env.stop_instance iid with
    | Except.error _ => (false, db)
    | Except.ok false => (false, db)
    | Except.ok true => (true, dbUpdateStop db s.id now)

/-- One iteration of the `for schedule in schedules` loop of
`check_pending_actions` (279–304).  The iteration-level `try` catches the
`pytz.timezone` failure (line 284); the four helper calls catch their own
exceptions internally.  The loop variable `s` is the row as loaded at the
start of the sweep; writes go to the database accumulator only. -/
def processOne (env : Env) (now : Int) (acc : Outcome × List Schedule)
    (s : Schedule) : Outcome × List Schedule :=
  if env.validTz s.timezone = false then acc
  else
    let acc1 :=
      if should_start env s now then
        let r := start_instance env acc.2 s now
        (if r.1 then { acc.1 with started := acc.1.started ++ [s.id] }
         else acc.1, r.2)
      else acc
    if should_stop env s now then
      let r := stop_instance env acc1.2 s now
      (if r.1 then { acc1.1 with stopped := acc1.1.stopped ++ [s.id] }
       else acc1.1, r.2)
    else acc1

/-- Embedding of `ScheduleManager.check_pending_actions` (253–310), the
sweep (`run_sweep`).  It loads the rows with `is_active = true` and folds
the per-schedule iteration over that snapshot, starting from the empty
outcome.  Returns the outcome together with the database after the sweep. -/
def check_pending_actions (env : Env) (now : Int) (db : List Schedule) :
    Outcome × List Schedule :=
  (db.filter (fun s => s.is_active)).foldl (processOne env now)
    ({ started := [], stopped := [] }, db)

/-- Success of the offer-search / instance-creation part of
`_start_instance`, which depends only on the environment and the schedule,
not on the database. -/
def startOk (env : Env) (s : Schedule) : Bool :=
  match env.search_offers (buildSearchParams s) with
  | Except.error _ => false
  | Except.ok [] => false
  | Except.ok (o :: _) =>
    match env.create_instance (buildInstanceParams s o.id) with
    | Except.ok (some _) => true
    | _ => false

/-- The handle (`new_contract`) a successful `_start_instance` records. -/
def newHandle (env : Env) (s : Schedule) : Option Int :=
  match env.search_offers (buildSearchParams s) with
  | Except.ok (o :: _) =>
    match env.create_instance (buildInstanceParams s o.id) with
    | Except.ok (some h) => some h
    | _ => none
  | _ => none

/-- Success of the stop request issued by `_stop_instance`, which depends
only on the environment and the schedule. -/
def stopOk (env : Env) (s : Schedule) : Bool :=
  match s.last_instance_id with
  | none => false
  | some iid =>
    match env.stop_instance iid with
    | Except.ok true => true
    | _ => false

/-- A schedule contributes to `started` in a sweep exactly when its timezone
resolves, `_should_start` fires, and `_start_instance` succeeds. -/
def startPred (env : Env) (now : Int) (s : Schedule) : Bool :=
  env.validTz s.timezone && should_start env s now && startOk env s

/-- A schedule contributes to `stopped` in a sweep exactly when its timezone
resolves, `_should_stop` fires, and `_stop_instance` succeeds. -/
def stopPred (env : Env) (now : Int) (s : Schedule) : Bool :=
  env.validTz s.timezone && should_stop env s now && stopOk env s

/-- Row lookup by schedule id, as `.eq("id", sid)` selects rows. -/
def getById (db : List Schedule) (sid : String) : Option Schedule :=
  db.find? (fun r => r.id == sid)

/-- The transformation one loop iteration for schedule `s` applies to a
database row matching `s.id`: the start write (when `_should_start` fired
and `_start_instance` succeeded) followed by the stop write (when
`_should_stop` fired and `_stop_instance` succeeded); nothing when the
timezone fails to resolve. -/
def rowAfterOne (env : Env) (now : Int) (s : Schedule) (r : Schedule) :
    Schedule :=
  if env.validTz s.timezone = false then r
  else
    let r1 :=
      if should_start env s now && startOk env s then
        match newHandle env s with
        | some h =>
          { r with last_instance_id := some h, last_run_time := some now,
                   updated_at := now }
        | none => r
      else r
    if should_stop env s now && stopOk env s then
      { r1 with updated_at := now }
    else r1

/-! ### Spec-side conditions

The following predicates state, in the spec's vocabulary, the conditions
the claims are phrased in; the theorems below compare the embedded code
against them. -/

/-- The probe succeeded and its listing shows the schedule's tracked handle
with status Running. -/
def probeShowsRunning (env : Env) (s : Schedule) : Prop :=
  ∃ iid l i, s.last_instance_id = some iid ∧
    env.show_instances = Except.ok l ∧ i ∈ l ∧ i.id = iid ∧
    i.status = "running"

/-- The provider's status-listing call failed. -/
def probeFailed (env : Env) : Prop :=
  ∃ e, env.show_instances = Except.error e

/-- `last_run_time` is null, or at least 1 hour (3600 s) has elapsed. -/
def debounceElapsed (s : Schedule) (now : Int) : Prop :=
  s.last_run_time = none ∨ ∃ t, s.last_run_time = some t ∧ now - t ≥ 3600

/-! ### Concrete fixtures used by witnesses and counterexamples -/

/-- A well-behaved environment: empty listing, every cron fires 60 s before
`now`, all timezones resolve, one offer, creation yields handle 7, stop
requests succeed. -/
def envW : Env :=
  { show_instances := Except.ok []
    getPrev := fun _ _ t => Except.ok (t - 60)
    validTz := fun _ => true
    search_offers := fun _ => Except.ok [{ id := 9 }]
    create_instance := fun _ => Except.ok (some 7)
    stop_instance := fun _ => Except.ok true }

/-- A plain active schedule with no tracked instance and no previous run. -/
def schedW : Schedule :=
  { id := "s1", name := "w", docker_image := "img"
    start_schedule := some "0 9 * * 1-5"
    stop_schedule := some "0 17 * * 1-5"
    timezone := "UTC", is_active := true, gpu_type := "RTX_4090"
    num_gpus := 1, disk_size := 50, max_price_per_hour := none
    use_ssh := true, last_instance_id := none, last_run_time := none
    updated_at := 0 }

/-- `schedW` but currently tracking instance 5. -/
def schedTracking : Schedule :=
  { schedW with last_instance_id := some 5 }

/-- An environment whose status-listing call raises (a provider outage);
otherwise like `envW`. -/
def envProbeErr : Env :=
  { envW with show_instances := Except.error "timeout" }

/-- An environment whose listing shows instance 5 running; otherwise like
`envW`. -/
def envRunning : Env :=
  { envW with show_instances := Except.ok [{ id := 5, status := "running" }] }

/-- `schedW` switched off (`is_active = false`). -/
def schedInactive : Schedule :=
  { schedW with is_active := false }

/-- A first-sweep environment for the double-sweep scenario: the listing
call fails, every cron expression fires exactly at the reference instant,
one offer whose provisioning yields handle 7, stop requests succeed. -/
def env6a : Env :=
  { show_instances := Except.error "timeout"
    getPrev := fun _ _ t => Except.ok t
    validTz := fun _ => true
    search_offers := fun _ => Except.ok [{ id := 9 }]
    create_instance := fun _ => Except.ok (some 7)
    stop_instance := fun _ => Except.ok true }

/-- The second-sweep environment: the listing now succeeds and truthfully
shows the instance created by the first sweep (handle 7) running. -/
def env6b : Env :=
  { env6a with show_instances := Except.ok [{ id := 7, status := "running" }] }

/-- A first-sweep environment whose listing succeeds and shows handle 5
running (so only the stop path fires). -/
def envw1 : Env :=
  { env6a with show_instances := Except.ok [{ id := 5, status := "running" }] }

/-- The matching second-sweep environment: the listing succeeds and shows
nothing running. -/
def envw2 : Env :=
  { env6a with show_instances := Except.ok [] }

/-! ### Basic lemmas about the decision functions -/

lemma running_observed_iff (env : Env) (s : Schedule) :
    running_observed env s = true ↔ probeShowsRunning env s := by
  unfold running_observed probeShowsRunning
  cases hli : s.last_instance_id with
  | none =>
    simp only [Bool.false_eq_true, false_iff]
    rintro ⟨iid, l, i, hi, -⟩
    simp [hli] at hi
  | some iid =>
    cases hsi : env.show_instances with
    | error e =>
      simp only [Bool.false_eq_true, false_iff]
      rintro ⟨iid2, l, i, hi, hl, -⟩
      exact (Except.noConfusion hl)
    | ok l =>
      rw [List.any_eq_true]
      constructor
      · rintro ⟨i, hmem, hcond⟩
        rw [Bool.and_eq_true, beq_iff_eq, beq_iff_eq] at hcond
        exact ⟨iid, l, i, rfl, rfl, hmem, hcond.1, hcond.2⟩
      · rintro ⟨iid2, l2, i, hiid2, hl2, hmem, hid, hst⟩
        have h1 : iid2 = iid := ((Option.some.injEq _ _).mp hiid2).symm
        have h2 : l2 = l := by
          cases hl2
          rfl
        refine ⟨i, h2 ▸ hmem, ?_⟩
        rw [Bool.and_eq_true, beq_iff_eq, beq_iff_eq]
        exact ⟨h1 ▸ hid, hst⟩

lemma debounce_match_iff (s : Schedule) (now : Int) :
    (match s.last_run_time with
      | none => true
      | some lastRun => decide (now - lastRun ≥ 3600)) = true ↔
    debounceElapsed s now := by
  unfold debounceElapsed
  cases hlr : s.last_run_time with
  | none => simp
  | some t => simp [hlr]

/-! ### Characterization of the action helpers -/

lemma startOk_eq (env : Env) (s : Schedule) :
    startOk env s = (newHandle env s).isSome := by
  unfold startOk newHandle
  cases env.search_offers (buildSearchParams s) with
  | error e => rfl
  | ok offers =>
    cases offers with
    | nil => rfl
    | cons o rest =>
      dsimp only
      cases env.create_instance (buildInstanceParams s o.id) with
      | error e => rfl
      | ok oh =>
        cases oh with
        | none => rfl
        | some h => rfl

lemma start_instance_eq (env : Env) (db : List Schedule) (s : Schedule)
    (now : Int) :
    start_instance env db s now =
      (match newHandle env s with
       | some h => (true, dbUpdateStart db s.id h now)
       | none => (false, db)) := by
  unfold start_instance newHandle
  cases env.search_offers (buildSearchParams s) with
  | error e => rfl
  | ok offers =>
    cases offers with
    | nil => rfl
    | cons o rest =>
      dsimp only
      cases env.create_instance (buildInstanceParams s o.id) with
      | error e => rfl
      | ok oh =>
        cases oh with
        | none => rfl
        | some h => rfl

lemma stop_instance_eq (env : Env) (db : List Schedule) (s : Schedule)
    (now : Int) :
    stop_instance env db s now =
      (if stopOk env s then (true, dbUpdateStop db s.id now)
       else (false, db)) := by
  unfold stop_instance stopOk
  cases s.last_instance_id with
  | none => rfl
  | some iid =>
    dsimp only
    cases env.stop_instance iid with
    | error e => rfl
    | ok b =>
      cases b with
      | false => rfl
      | true => rfl

lemma dbUpdate_start_stop (db : List Schedule) (sid : String) (h now : Int) :
    dbUpdateStop (dbUpdateStart db sid h now) sid now =
      db.map (fun r =>
        if r.id = sid then
          { r with last_instance_id := some h, last_run_time := some now,
                   updated_at := now }
        else r) := by
  unfold dbUpdateStart dbUpdateStop
  rw [List.map_map]
  congr 1
  funext r
  by_cases hid : r.id = sid
  · simp [Function.comp, hid]
  · simp [Function.comp, hid]

lemma processOne_eq (env : Env) (now : Int) (out : Outcome)
    (db : List Schedule) (s : Schedule) :
    processOne env now (out, db) s =
      ({ started := out.started ++
           (if startPred env now s then [s.id] else []),
         stopped := out.stopped ++
           (if stopPred env now s then [s.id] else []) },
       db.map (fun r => if r.id = s.id then rowAfterOne env now s r else r))
    := by
  unfold processOne startPred stopPred rowAfterOne
  by_cases htz : env.validTz s.timezone = false
  · simp [htz]
  · rw [Bool.not_eq_false] at htz
    by_cases hstart : should_start env s now = true <;>
      by_cases hstop : should_stop env s now = true <;>
        cases hnh : newHandle env s <;>
          by_cases hsok : stopOk env s = true <;>
            simp [htz, hstart, hstop, hsok, hnh, start_instance_eq,
              stop_instance_eq, startOk_eq, dbUpdate_start_stop,
              dbUpdateStart, dbUpdateStop] <;>
            (intro a ha hid
             by_cases h2 : a.id = s.id
             · simp [h2]
             · simp [h2] at hid)

lemma foldl_processOne_outcome (env : Env) (now : Int) (L : List Schedule) :
    ∀ (out : Outcome) (db : List Schedule),
      (L.foldl (processOne env now) (out, db)).1 =
        { started := out.started ++
            ((L.filter (fun s => startPred env now s)).map Schedule.id),
          stopped := out.stopped ++
            ((L.filter (fun s => stopPred env now s)).map Schedule.id) } := by
  induction L with
  | nil =>
    intro out db
    simp
  | cons s L ih =>
    intro out db
    rw [List.foldl_cons, processOne_eq, ih]
    by_cases h1 : startPred env now s = true <;>
      by_cases h2 : stopPred env now s = true <;>
        simp [h1, h2, List.filter_cons]

lemma sweep_started_eq (env : Env) (now : Int) (db : List Schedule) :
    (check_pending_actions env now db).1.started =
      (((db.filter (fun s => s.is_active)).filter
          (fun s => startPred env now s)).map Schedule.id) := by
  unfold check_pending_actions
  rw [foldl_processOne_outcome]
  simp

lemma sweep_stopped_eq (env : Env) (now : Int) (db : List Schedule) :
    (check_pending_actions env now db).1.stopped =
      (((db.filter (fun s => s.is_active)).filter
          (fun s => stopPred env now s)).map Schedule.id) := by
  unfold check_pending_actions
  rw [foldl_processOne_outcome]
  simp

lemma mem_started_iff (env : Env) (now : Int) (db : List Schedule)
    (sid : String) :
    sid ∈ (check_pending_actions env now db).1.started ↔
      ∃ s, s ∈ db ∧ s.is_active = true ∧ startPred env now s = true ∧
        s.id = sid := by
  rw [sweep_started_eq]
  simp only [List.mem_map, List.mem_filter]
  tauto

lemma mem_stopped_iff (env : Env) (now : Int) (db : List Schedule)
    (sid : String) :
    sid ∈ (check_pending_actions env now db).1.stopped ↔
      ∃ s, s ∈ db ∧ s.is_active = true ∧ stopPred env now s = true ∧
        s.id = sid := by
  rw [sweep_stopped_eq]
  simp only [List.mem_map, List.mem_filter]
  tauto

lemma rowAfterOne_id (env : Env) (now : Int) (s r : Schedule) :
    (rowAfterOne env now s r).id = r.id := by
  unfold rowAfterOne
  by_cases htz : env.validTz s.timezone = false
  · simp [htz]
  · rw [Bool.not_eq_false] at htz
    cases hnh : newHandle env s <;>
      by_cases h1 : (should_start env s now && startOk env s) = true <;>
        by_cases h2 : (should_stop env s now && stopOk env s) = true <;>
          simp [htz, hnh, h1, h2]

lemma getById_map_pres (f : Schedule → Schedule)
    (hf : ∀ r, (f r).id = r.id) (db : List Schedule) (sid : String) :
    getById (db.map f) sid = (getById db sid).map f := by
  induction db with
  | nil => rfl
  | cons r db ih =>
    rw [List.map_cons]
    by_cases h : (r.id == sid) = true
    · have h1 : ((f r).id == sid) = true := by
        rw [hf r]
        exact h
      simp [getById, List.find?_cons, h, h1]
    · rw [Bool.not_eq_true] at h
      have h1 : ((f r).id == sid) = false := by
        rw [hf r]
        exact h
      simp only [getById, List.find?_cons, h, h1]
      exact ih

lemma getById_id (db : List Schedule) (sid : String) (r : Schedule)
    (h : getById db sid = some r) : r.id = sid := by
  induction db with
  | nil => exact Option.noConfusion h
  | cons x db ih =>
    by_cases hx : (x.id == sid) = true
    · simp only [getById, List.find?_cons, hx] at h
      cases h
      exact beq_iff_eq.mp hx
    · rw [Bool.not_eq_true] at hx
      simp only [getById, List.find?_cons, hx] at h
      exact ih h

lemma getById_of_mem_nodup (db : List Schedule) (s : Schedule)
    (hN : (db.map Schedule.id).Nodup) (hmem : s ∈ db) :
    getById db s.id = some s := by
  induction db with
  | nil => cases hmem
  | cons x db ih =>
    rw [List.map_cons, List.nodup_cons] at hN
    obtain ⟨hx1, hx2⟩ := hN
    rcases List.mem_cons.mp hmem with he | hm
    · subst he
      simp [getById, List.find?_cons]
    · have hx : (x.id == s.id) = false := by
        rw [beq_eq_false_iff_ne]
        intro hh
        exact hx1 (hh ▸ List.mem_map_of_mem Schedule.id hm)
      simp only [getById, List.find?_cons, hx]
      exact ih hx2 hm

lemma foldl_processOne_db_ne (env : Env) (now : Int) (L : List Schedule) :
    ∀ (out : Outcome) (db : List Schedule) (sid : String),
      (∀ x ∈ L, x.id ≠ sid) →
      getById ((L.foldl (processOne env now) (out, db)).2) sid =
        getById db sid := by
  induction L with
  | nil =>
    intro out db sid _
    rfl
  | cons x L ih =>
    intro out db sid h
    rw [List.foldl_cons, processOne_eq,
      ih _ _ _ (fun y hy => h y (List.mem_cons_of_mem x hy)),
      getById_map_pres _ (fun r => by
        by_cases hr : r.id = x.id <;> simp [hr, rowAfterOne_id])]
    cases hg : getById db sid with
    | none => rfl
    | some r =>
      have hrid : r.id = sid := getById_id _ _ _ hg
      have hne : ¬ r.id = x.id := by
        rw [hrid]
        exact fun he => (h x (List.mem_cons_self x L)) he.symm
      simp [hne]

lemma foldl_processOne_db_mem (env : Env) (now : Int) (L : List Schedule) :
    ∀ (out : Outcome) (db : List Schedule),
      (L.map Schedule.id).Nodup → ∀ s ∈ L,
      getById ((L.foldl (processOne env now) (out, db)).2) s.id =
        (getById db s.id).map (rowAfterOne env now s) := by
  induction L with
  | nil =>
    intro out db _ s hs
    cases hs
  | cons x L ih =>
    intro out db hN s hs
    rw [List.map_cons, List.nodup_cons] at hN
    obtain ⟨hx1, hx2⟩ := hN
    rw [List.foldl_cons, processOne_eq]
    rcases List.mem_cons.mp hs with he | hmem
    · subst he
      rw [foldl_processOne_db_ne env now L _ _ _
          (fun y hy he2 => hx1 (by
            rw [← he2]
            exact List.mem_map_of_mem Schedule.id hy)),
        getById_map_pres _ (fun r => by
          by_cases hr : r.id = s.id <;> simp [hr, rowAfterOne_id])]
      cases hg : getById db s.id with
      | none => rfl
      | some r =>
        have hrid : r.id = s.id := getById_id _ _ _ hg
        simp [hrid]
    · have hxs : x.id ≠ s.id :=
        fun he2 => hx1 (he2 ▸ List.mem_map_of_mem Schedule.id hmem)
      rw [ih _ _ hx2 s hmem,
        getById_map_pres _ (fun r => by
          by_cases hr : r.id = x.id <;> simp [hr, rowAfterOne_id])]
      cases hg : getById db s.id with
      | none => rfl
      | some r =>
        have hrid : r.id = s.id := getById_id _ _ _ hg
        have hne : ¬ r.id = x.id := by
          rw [hrid]
          exact fun he2 => hxs he2.symm
        simp [hne]

lemma foldl_processOne_db_map_id (env : Env) (now : Int)
    (L : List Schedule) :
    ∀ (out : Outcome) (db : List Schedule),
      ((L.foldl (processOne env now) (out, db)).2).map Schedule.id =
        db.map Schedule.id := by
  induction L with
  | nil =>
    intro out db
    rfl
  | cons x L ih =>
    intro out db
    rw [List.foldl_cons, processOne_eq, ih, List.map_map]
    congr 1
    funext r
    by_cases hr : r.id = x.id <;> simp [Function.comp, hr, rowAfterOne_id]

lemma sweep_db_map_id (env : Env) (now : Int) (db : List Schedule) :
    ((check_pending_actions env now db).2).map Schedule.id =
      db.map Schedule.id := by
  unfold check_pending_actions
  rw [foldl_processOne_db_map_id]

lemma sweep_db_mem (env : Env) (now : Int) (db : List Schedule)
    (s : Schedule) (hN : (db.map Schedule.id).Nodup) (hmem : s ∈ db)
    (hact : s.is_active = true) :
    getById (check_pending_actions env now db).2 s.id =
      some (rowAfterOne env now s s) := by
  unfold check_pending_actions
  rw [foldl_processOne_db_mem env now _ _ _
      (((List.filter_sublist db).map Schedule.id).nodup hN) s
      (List.mem_filter.mpr ⟨hmem, hact⟩),
    getById_of_mem_nodup db s hN hmem]
  rfl

lemma running_observed_probe_err (env : Env) (s : Schedule) (e : String)
    (hsi : env.show_instances = Except.error e) :
    running_observed env s = false := by
  unfold running_observed
  cases s.last_instance_id with
  | none => rfl
  | some iid =>
    dsimp only
    rw [hsi]

lemma running_observed_should_start_false (env : Env) (s : Schedule)
    (now : Int) (h : running_observed env s = true) :
    should_start env s now = false := by
  unfold should_start
  cases s.start_schedule with
  | none => rfl
  | some e =>
    dsimp only
    split_ifs with h1 h2
    · rfl
    · rfl
    · rfl

lemma should_start_false_of_recent (env : Env) (s : Schedule) (now t : Int)
    (hlr : s.last_run_time = some t) (h : now - t < 3600) :
    should_start env s now = false := by
  unfold should_start
  cases s.start_schedule with
  | none => rfl
  | some e =>
    dsimp only
    split_ifs with h1 h2 h3
    · rfl
    · rfl
    · rfl
    · cases env.getPrev e s.timezone now with
      | error er => rfl
      | ok p =>
        dsimp only
        by_cases h120 : now - p ≤ 120
        · rw [if_pos h120]
          simp only [hlr, decide_eq_false_iff_not]
          omega
        · rw [if_neg h120]

lemma should_stop_running_of_ok (env : Env) (s : Schedule) (now : Int)
    (l : List InstanceInfo) (hsi : env.show_instances = Except.ok l) :
    should_stop env s now = true → running_observed env s = true := by
  unfold should_stop
  cases s.stop_schedule with
  | none =>
    intro h
    exact absurd h (by simp)
  | some e =>
    dsimp only
    split_ifs with h1
    · intro h
      exact absurd h (by simp)
    cases hli : s.last_instance_id with
    | none =>
      intro h
      exact absurd h (by simp)
    | some iid =>
      dsimp only
      rw [hsi]
      dsimp only
      by_cases hany : (l.any fun i => i.id == iid && i.status == "running")
        = true
      · intro _
        unfold running_observed
        rw [hli]
        dsimp only
        rw [hsi]
        exact hany
      · rw [Bool.not_eq_true] at hany
        rw [hany, if_pos rfl]
        intro h
        exact absurd h (by simp)

lemma should_stop_false_of_not_running (env : Env) (s : Schedule)
    (now : Int) (l : List InstanceInfo) (iid : Int)
    (hsi : env.show_instances = Except.ok l)
    (hli : s.last_instance_id = some iid)
    (hnr : ∀ i ∈ l, i.id = iid → i.status ≠ "running") :
    should_stop env s now = false := by
  unfold should_stop
  cases s.stop_schedule with
  | none => rfl
  | some e =>
    dsimp only
    by_cases h1 : s.is_active = false
    · rw [if_pos h1]
    · rw [if_neg h1, hli]
      dsimp only
      rw [hsi]
      dsimp only
      have hany : (l.any fun i => i.id == iid && i.status == "running")
          = false := by
        rw [List.any_eq_false]
        intro i hi
        simp only [Bool.and_eq_true, beq_iff_eq, not_and]
        intro hid hst
        exact hnr i hi hid hst
      rw [hany, if_pos rfl]

lemma should_stop_none (env : Env) (s : Schedule) (now : Int)
    (hli : s.last_instance_id = none) : should_stop env s now = false := by
  unfold should_stop
  cases s.stop_schedule with
  | none => rfl
  | some e =>
    dsimp only
    rw [hli]
    dsimp only
    split_ifs <;> rfl

lemma should_stop_handle (env : Env) (s : Schedule) (now : Int)
    (h : should_stop env s now = true) :
    ∃ iid, s.last_instance_id = some iid := by
  cases hli : s.last_instance_id with
  | some iid => exact ⟨iid, rfl⟩
  | none =>
    rw [should_stop_none env s now hli] at h
    exact Bool.noConfusion h

lemma rowAfterOne_last_run (env : Env) (now : Int) (s : Schedule)
    (h : startPred env now s = true) (r : Schedule) :
    (rowAfterOne env now s r).last_run_time = some now := by
  unfold startPred at h
  rw [Bool.and_eq_true, Bool.and_eq_true] at h
  obtain ⟨⟨htz, hstart⟩, hok⟩ := h
  rcases Option.isSome_iff_exists.mp (by
      rw [← startOk_eq]
      exact hok) with ⟨hd, hnh⟩
  unfold rowAfterOne
  by_cases hstop2 : (should_stop env s now && stopOk env s) = true <;>
    simp [htz, hstart, hok, hnh, hstop2]

lemma rowAfterOne_no_start (env : Env) (now : Int) (s r : Schedule)
    (h : should_start env s now = false) :
    rowAfterOne env now s r = r ∨
      rowAfterOne env now s r = { r with updated_at := now } := by
  unfold rowAfterOne
  by_cases htz : env.validTz s.timezone = false
  · left
    simp [htz]
  · rw [Bool.not_eq_false] at htz
    by_cases hstop2 : (should_stop env s now && stopOk env s) = true
    · right
      simp [htz, h, hstop2]
    · left
      simp [htz, h, hstop2]

/-! ### Claim C1 -/

/-- C1: for an active schedule evaluated by a sweep (start expression
present and parseable, timezone resolvable), the start action is due iff
the reference instant is within 2 minutes of the previous fire of the start
cron expression, no resource is currently observed Running for the
schedule's `last_instance_handle`, and `last_run_time` is null or at least
1 hour has elapsed since it. -/
theorem C1_start_decision (env : Env) (s : Schedule) (now prevRun : Int)
    (expr : String)
    (hact : s.is_active = true)
    (hexpr : s.start_schedule = some expr)
    (htz : env.validTz s.timezone = true)
    (hparse : env.getPrev expr s.timezone now = Except.ok prevRun) :
    should_start env s now = true ↔
      (now - prevRun ≤ 120 ∧ ¬ probeShowsRunning env s ∧
        debounceElapsed s now) := by
  unfold should_start
  simp only [hexpr]
  split_ifs with h1 h2 h3
  · simp [hact] at h1
  · rw [htz] at h2
    simp at h2
  · simp only [Bool.false_eq_true, false_iff]
    rintro ⟨-, hnr, -⟩
    exact hnr ((running_observed_iff env s).mp h3)
  · simp only [hparse]
    by_cases h120 : now - prevRun ≤ 120
    · rw [if_pos h120, debounce_match_iff]
      constructor
      · intro hd
        refine ⟨h120, ?_, hd⟩
        intro hp
        exact h3 ((running_observed_iff env s).mpr hp)
      · rintro ⟨-, -, hd⟩
        exact hd
    · rw [if_neg h120]
      simp only [Bool.false_eq_true, false_iff]
      rintro ⟨h, -, -⟩
      exact h120 h

/-- Witness for C1: the decision rule instantiated at a concrete schedule
and environment, with all hypotheses discharged by `rfl`. -/
theorem C1_start_decision_witness :
    should_start envW schedW 3600 = true ↔
      ((3600 : Int) - 3540 ≤ 120 ∧ ¬ probeShowsRunning envW schedW ∧
        debounceElapsed schedW 3600) :=
  C1_start_decision envW schedW 3600 3540 "0 9 * * 1-5" rfl rfl rfl rfl

/-! ### Claim C2 -/

/-- C2 as stated is false: when the status-listing call raises, `_should_stop`
assumes the instance is running and declares the stop due, although no
probe listing shows the handle Running.  Concrete input: a tracked,
active schedule whose stop expression is due, in an environment whose
listing call fails. -/
theorem C2_counterexample :
    should_stop envProbeErr schedTracking 3600 = true ∧
      ¬ probeShowsRunning envProbeErr schedTracking := by
  constructor
  · rfl
  · rintro ⟨iid, l, i, -, hl, -⟩
    rw [show envProbeErr.show_instances = Except.error "timeout" from rfl]
      at hl
    exact Except.noConfusion hl

/-- C2 (amended): for an active schedule whose stop expression is present
and parseable, the stop action is due iff `last_instance_handle` is
non-null, the probe's listing shows that handle with status Running OR the
status-listing call failed (in which case the instance is assumed running),
and the reference instant is within 2 minutes of the previous fire of the
stop cron expression. -/
theorem C2_stop_decision (env : Env) (s : Schedule) (now prevRun : Int)
    (expr : String)
    (hact : s.is_active = true)
    (hexpr : s.stop_schedule = some expr)
    (hparse : env.getPrev expr s.timezone now = Except.ok prevRun) :
    should_stop env s now = true ↔
      ((∃ iid, s.last_instance_id = some iid) ∧
        (probeShowsRunning env s ∨ probeFailed env) ∧
        now - prevRun ≤ 120) := by
  unfold should_stop
  simp only [hexpr]
  split_ifs with h1
  · simp [hact] at h1
  cases hli : s.last_instance_id with
  | none =>
    simp only [Bool.false_eq_true, false_iff]
    rintro ⟨⟨iid, hiid⟩, -, -⟩
    exact Option.noConfusion hiid
  | some iid =>
    cases hsi : env.show_instances with
    | error e =>
      simp only [if_neg (by simp : ¬ (true = false)), hparse,
        decide_eq_true_eq]
      constructor
      · intro h120
        exact ⟨⟨iid, rfl⟩, Or.inr ⟨e, hsi⟩, h120⟩
      · rintro ⟨-, -, h120⟩
        exact h120
    | ok l =>
      have hro : (l.any (fun i => i.id == iid && i.status == "running"))
          = true ↔ probeShowsRunning env s := by
        rw [← running_observed_iff]
        simp [running_observed, hli, hsi]
      by_cases hany : l.any (fun i => i.id == iid && i.status == "running")
        = true
      · simp only [hany, if_neg (by simp : ¬ (true = false)), hparse,
          decide_eq_true_eq]
        constructor
        · intro h120
          exact ⟨⟨iid, rfl⟩, Or.inl (hro.mp hany), h120⟩
        · rintro ⟨-, -, h120⟩
          exact h120
      · rw [Bool.not_eq_true] at hany
        simp only [hany]
        rw [if_pos trivial]
        simp only [Bool.false_eq_true, false_iff]
        rintro ⟨-, hpr | hpf, -⟩
        · exact absurd (hro.mpr hpr) (by simp [hany])
        · rcases hpf with ⟨e, he⟩
          rw [hsi] at he
          exact Except.noConfusion he

/-- Witness for the amended C2 at a concrete tracked schedule whose handle
the listing reports Running. -/
theorem C2_stop_decision_witness :
    should_stop envRunning schedTracking 3600 = true ↔
      ((∃ iid, schedTracking.last_instance_id = some iid) ∧
        (probeShowsRunning envRunning schedTracking ∨
          probeFailed envRunning) ∧
        (3600 : Int) - 3540 ≤ 120) :=
  C2_stop_decision envRunning schedTracking 3600 3540 "0 17 * * 1-5"
    rfl rfl rfl

/-! ### Claim C3 -/

/-- C3 as stated is false: in a sweep whose status-listing call fails, a
start action is still issued for a tracked, otherwise-due schedule (the
failed listing is treated like absence in the start path rather than as
Unknown). -/
theorem C3_counterexample :
    envProbeErr.show_instances = Except.error "timeout" ∧
      (check_pending_actions envProbeErr 3600 [schedTracking]).1.started =
        ["s1"] := by
  constructor
  · rfl
  · decide

/-- C3 (amended): when the provider's status-listing call fails, the start
path treats the failure as the resource not being observed Running rather
than skipping the schedule: for an active schedule with a parseable start
expression, the start decision then reduces to the tolerance window and the
1-hour debounce alone, so a start action can be issued in a sweep whose
probe failed. -/
theorem C3_probe_failure_start (env : Env) (s : Schedule)
    (now prevRun : Int) (expr e : String)
    (hprobe : env.show_instances = Except.error e)
    (hact : s.is_active = true)
    (hexpr : s.start_schedule = some expr)
    (htz : env.validTz s.timezone = true)
    (hparse : env.getPrev expr s.timezone now = Except.ok prevRun) :
    should_start env s now = true ↔
      (now - prevRun ≤ 120 ∧ debounceElapsed s now) := by
  have hro : running_observed env s = false :=
    running_observed_probe_err env s e hprobe
  unfold should_start
  simp only [hexpr]
  split_ifs with h1 h2 h3
  · simp [hact] at h1
  · rw [htz] at h2
    simp at h2
  · rw [hro] at h3
    exact absurd h3 (by simp)
  · simp only [hparse]
    by_cases h120 : now - prevRun ≤ 120
    · rw [if_pos h120, debounce_match_iff]
      constructor
      · intro hd
        exact ⟨h120, hd⟩
      · rintro ⟨-, hd⟩
        exact hd
    · rw [if_neg h120]
      simp only [Bool.false_eq_true, false_iff]
      rintro ⟨h, -⟩
      exact h120 h

/-- Witness for the amended C3 at a concrete schedule and failing probe. -/
theorem C3_probe_failure_start_witness :
    should_start envProbeErr schedTracking 3600 = true ↔
      ((3600 : Int) - 3540 ≤ 120 ∧ debounceElapsed schedTracking 3600) :=
  C3_probe_failure_start envProbeErr schedTracking 3600 3540
    "0 9 * * 1-5" "timeout" rfl rfl rfl rfl rfl

/-! ### Claim C4 -/

/-- C4: the sweep is a total function of the environment and the loaded
rows, and its outcome is a per-schedule filter: each schedule's membership
in `started` (resp. `stopped`) is decided by that schedule's own record and
the environment alone — `startPred`/`stopPred` bundle the timezone
resolution, the decision function (which absorbs every exception,
including an unparseable cron expression, as "not due"), and the action's
success.  Hence an error on one schedule never removes another schedule
from the outcome, and the sweep never raises. -/
theorem C4_isolation (env : Env) (now : Int) (db : List Schedule) :
    (check_pending_actions env now db).1.started =
      (((db.filter (fun s => s.is_active)).filter
          (fun s => startPred env now s)).map Schedule.id) ∧
    (check_pending_actions env now db).1.stopped =
      (((db.filter (fun s => s.is_active)).filter
          (fun s => stopPred env now s)).map Schedule.id) :=
  ⟨sweep_started_eq env now db, sweep_stopped_eq env now db⟩

/-! ### Claim C5 -/

/-- C5: for a schedule whose start action is invoked (timezone resolves,
`_should_start` fired; the stop path idle): if the offer search and
provisioning succeed the row is updated with the new handle,
`last_run_time = now` and `updated_at = now` and the id is appended to
`started`; on failure (no offer, provider error, falsy response) the
outcome and the database are completely unchanged. -/
theorem C5_start_persistence (env : Env) (now : Int) (out : Outcome)
    (db : List Schedule) (s : Schedule)
    (htz : env.validTz s.timezone = true)
    (hdue : should_start env s now = true)
    (hnostop : should_stop env s now = false) :
    (startOk env s = true →
      ∃ h, newHandle env s = some h ∧
        processOne env now (out, db) s =
          ({ out with started := out.started ++ [s.id] },
            dbUpdateStart db s.id h now)) ∧
    (startOk env s = false →
      processOne env now (out, db) s = (out, db)) := by
  constructor
  · intro hok
    rcases Option.isSome_iff_exists.mp (by
        rw [← startOk_eq]
        exact hok) with ⟨h, hnh⟩
    refine ⟨h, hnh, ?_⟩
    rw [processOne_eq]
    have hsp : startPred env now s = true := by
      simp [startPred, htz, hdue, hok]
    have hspn : stopPred env now s = false := by
      simp [stopPred, hnostop]
    simp [hsp, hspn, rowAfterOne, htz, hdue, hok, hnostop, hnh,
      dbUpdateStart]
  · intro hok
    rw [processOne_eq]
    have hsp : startPred env now s = false := by
      simp [startPred, hok]
    have hspn : stopPred env now s = false := by
      simp [stopPred, hnostop]
    simp [hsp, hspn, rowAfterOne, htz, hok, hnostop]

/-- Witness for C5 at a concrete due schedule: provisioning succeeds with
handle 7 and the row is persisted accordingly. -/
theorem C5_start_persistence_witness :
    (startOk envW schedW = true →
      ∃ h, newHandle envW schedW = some h ∧
        processOne envW 3600 ({ started := [], stopped := [] }, [schedW])
          schedW =
          ({ started := [] ++ ["s1"], stopped := [] },
            dbUpdateStart [schedW] "s1" h 3600)) ∧
    (startOk envW schedW = false →
      processOne envW 3600 ({ started := [], stopped := [] }, [schedW])
        schedW =
        ({ started := [], stopped := [] }, [schedW])) :=
  C5_start_persistence envW 3600 { started := [], stopped := [] } [schedW]
    schedW rfl (by decide) (by decide)

/-! ### Claim C6 -/

/-- C6 as stated is false.  Concrete run with no time elapsed and all
writes of sweep 1 visible to sweep 2: sweep 1's listing call fails, so the
same schedule both starts a new instance (handle 7) and stops its old
handle (5); sweep 2's listing truthfully shows the newly created handle 7
running, and since the stop window is still open the second sweep issues a
second stop action for the same schedule. -/
theorem C6_counterexample :
    (check_pending_actions env6a 60 [schedTracking]).1.stopped = ["s1"] ∧
    (check_pending_actions env6b 60
        (check_pending_actions env6a 60 [schedTracking]).2).1.stopped =
      ["s1"] ∧
    (check_pending_actions env6b 60
        (check_pending_actions env6a 60 [schedTracking]).2).1.started =
      [] := by
  decide

/-- C6 (amended): with no time elapsed between the sweeps and the first
sweep's writes visible to the second, no schedule is started by both
sweeps — unconditionally: the persisted `last_run_time` makes the 1-hour
debounce fail whatever the probes do; and provided the status-listing call
succeeded in BOTH sweeps and the second listing no longer shows the
schedule's tracked handle Running, no schedule is stopped by both sweeps.
(When sweep 1's listing fails, a second stop can occur — see the
counterexample.) -/
theorem C6_no_duplicate_actions (env1 env2 : Env) (now : Int)
    (db : List Schedule) (sid : String)
    (hN : (db.map Schedule.id).Nodup) :
    ¬ (sid ∈ (check_pending_actions env1 now db).1.started ∧
        sid ∈ (check_pending_actions env2 now
          (check_pending_actions env1 now db).2).1.started) ∧
    (∀ l1 l2 : List InstanceInfo,
      env1.show_instances = Except.ok l1 →
      env2.show_instances = Except.ok l2 →
      (∀ s ∈ db,
        s.id ∈ (check_pending_actions env1 now db).1.stopped →
        ∀ iid, s.last_instance_id = some iid →
          ∀ i ∈ l2, i.id = iid → i.status ≠ "running") →
      ¬ (sid ∈ (check_pending_actions env1 now db).1.stopped ∧
          sid ∈ (check_pending_actions env2 now
            (check_pending_actions env1 now db).2).1.stopped)) := by
  have hN1 :
      (((check_pending_actions env1 now db).2).map Schedule.id).Nodup := by
    rw [sweep_db_map_id]
    exact hN
  constructor
  · rintro ⟨hs1, hs2⟩
    rcases (mem_started_iff env1 now db sid).mp hs1 with
      ⟨s, hsdb, hact, hsp, hsid⟩
    have hrow : getById (check_pending_actions env1 now db).2 s.id =
        some (rowAfterOne env1 now s s) :=
      sweep_db_mem env1 now db s hN hsdb hact
    rcases (mem_started_iff env2 now
        (check_pending_actions env1 now db).2 sid).mp hs2 with
      ⟨r, hrdb1, hract, hrsp, hrid⟩
    have hr2 : getById (check_pending_actions env1 now db).2 r.id = some r
      := getById_of_mem_nodup _ r hN1 hrdb1
    rw [hrid, ← hsid, hrow] at hr2
    have hre : rowAfterOne env1 now s s = r := Option.some.inj hr2
    have hss2 : should_start env2 r now = true := by
      unfold startPred at hrsp
      rw [Bool.and_eq_true, Bool.and_eq_true] at hrsp
      exact hrsp.1.2
    have hlr : r.last_run_time = some now := by
      rw [← hre]
      exact rowAfterOne_last_run env1 now s hsp s
    have hfalse : should_start env2 r now = false :=
      should_start_false_of_recent env2 r now now hlr (by omega)
    rw [hss2] at hfalse
    exact Bool.noConfusion hfalse
  · intro l1 l2 hp1 hp2 hvis
    rintro ⟨hs1, hs2⟩
    rcases (mem_stopped_iff env1 now db sid).mp hs1 with
      ⟨s, hsdb, hact, hsp, hsid⟩
    have hstop1 : should_stop env1 s now = true := by
      unfold stopPred at hsp
      rw [Bool.and_eq_true, Bool.and_eq_true] at hsp
      exact hsp.1.2
    have hro : running_observed env1 s = true :=
      should_stop_running_of_ok env1 s now l1 hp1 hstop1
    have hnostart : should_start env1 s now = false :=
      running_observed_should_start_false env1 s now hro
    rcases should_stop_handle env1 s now hstop1 with ⟨iid, hiid⟩
    have hrow : getById (check_pending_actions env1 now db).2 s.id =
        some (rowAfterOne env1 now s s) :=
      sweep_db_mem env1 now db s hN hsdb hact
    rcases (mem_stopped_iff env2 now
        (check_pending_actions env1 now db).2 sid).mp hs2 with
      ⟨r, hrdb1, hract, hrsp, hrid⟩
    have hr2 : getById (check_pending_actions env1 now db).2 r.id = some r
      := getById_of_mem_nodup _ r hN1 hrdb1
    rw [hrid, ← hsid, hrow] at hr2
    have hre : rowAfterOne env1 now s s = r := Option.some.inj hr2
    have hstop2 : should_stop env2 r now = true := by
      unfold stopPred at hrsp
      rw [Bool.and_eq_true, Bool.and_eq_true] at hrsp
      exact hrsp.1.2
    have hrli : r.last_instance_id = some iid := by
      rcases rowAfterOne_no_start env1 now s s hnostart with hcase | hcase
      · rw [← hre, hcase]
        exact hiid
      · rw [← hre, hcase]
        exact hiid
    have hmem1 : s.id ∈ (check_pending_actions env1 now db).1.stopped := by
      rw [hsid]
      exact hs1
    have hnr : ∀ i ∈ l2, i.id = iid → i.status ≠ "running" :=
      hvis s hsdb hmem1 iid hiid
    have hfalse : should_stop env2 r now = false :=
      should_stop_false_of_not_running env2 r now l2 iid hp2 hrli hnr
    rw [hstop2] at hfalse
    exact Bool.noConfusion hfalse

/-- Witness for the amended C6: a schedule stopped in sweep 1 (listing
shows handle 5 running) is not started twice and not acted on again by
sweep 2, whose listing succeeds and shows nothing running. -/
theorem C6_no_duplicate_actions_witness :
    ¬ ("s1" ∈ (check_pending_actions envw1 60 [schedTracking]).1.started ∧
        "s1" ∈ (check_pending_actions envw2 60
          (check_pending_actions envw1 60 [schedTracking]).2).1.started) ∧
    ¬ ("s1" ∈ (check_pending_actions envw1 60 [schedTracking]).1.stopped ∧
        "s1" ∈ (check_pending_actions envw2 60
          (check_pending_actions envw1 60 [schedTracking]).2).1.stopped) :=
  ⟨(C6_no_duplicate_actions envw1 envw2 60 [schedTracking] "s1"
      (by decide)).1,
   (C6_no_duplicate_actions envw1 envw2 60 [schedTracking] "s1"
      (by decide)).2
     [{ id := 5, status := "running" }] [] rfl rfl
     (fun s hs hstop iid hiid i hi => absurd hi (List.not_mem_nil i))⟩

/-! ### Claim C8 -/

/-- C8: for a schedule whose stop action succeeds (timezone resolves,
`_should_stop` fired, the stop request succeeded; the start path idle),
the only database write is `updated_at := now` on the schedule's own row —
`last_instance_id` and `last_run_time` are untouched — and the outcome's
`stopped` list gains exactly the schedule id. -/
theorem C8_stop_frame (env : Env) (now : Int) (out : Outcome)
    (db : List Schedule) (s : Schedule)
    (htz : env.validTz s.timezone = true)
    (hnostart : should_start env s now = false)
    (hdue : should_stop env s now = true)
    (hok : stopOk env s = true) :
    processOne env now (out, db) s =
      ({ out with stopped := out.stopped ++ [s.id] },
        dbUpdateStop db s.id now) := by
  rw [processOne_eq]
  have hsp : startPred env now s = false := by
    simp [startPred, hnostart]
  have hspn : stopPred env now s = true := by
    simp [stopPred, htz, hdue, hok]
  simp [hsp, hspn, rowAfterOne, htz, hnostart, hdue, hok, dbUpdateStop]

/-- Witness for C8: a tracked schedule whose handle the listing shows
Running, inside its stop window. -/
theorem C8_stop_frame_witness :
    processOne envRunning 3600
        ({ started := [], stopped := [] }, [schedTracking]) schedTracking =
      ({ started := [], stopped := [] ++ ["s1"] },
        dbUpdateStop [schedTracking] "s1" 3600) :=
  C8_stop_frame envRunning 3600 { started := [], stopped := [] }
    [schedTracking] schedTracking rfl (by decide) (by decide) rfl

/-! ### Claim C9 -/

/-- C9: a schedule with `is_active = false` is invisible to the sweep: its
id appears in neither `started` nor `stopped`, and its database row is
bit-for-bit unchanged after the sweep. -/
theorem C9_inactive_untouched (env : Env) (now : Int) (db : List Schedule)
    (s : Schedule) (hmem : s ∈ db) (hinact : s.is_active = false)
    (hN : (db.map Schedule.id).Nodup) :
    s.id ∉ (check_pending_actions env now db).1.started ∧
    s.id ∉ (check_pending_actions env now db).1.stopped ∧
    getById (check_pending_actions env now db).2 s.id = some s := by
  have hgot : getById db s.id = some s := getById_of_mem_nodup db s hN hmem
  refine ⟨?_, ?_, ?_⟩
  · intro hmem2
    rcases (mem_started_iff env now db s.id).mp hmem2 with
      ⟨x, hx, hact, -, hid⟩
    have hx2 : getById db x.id = some x := getById_of_mem_nodup db x hN hx
    rw [hid, hgot] at hx2
    have hsx : s = x := Option.some.inj hx2
    rw [← hsx, hinact] at hact
    exact Bool.noConfusion hact
  · intro hmem2
    rcases (mem_stopped_iff env now db s.id).mp hmem2 with
      ⟨x, hx, hact, -, hid⟩
    have hx2 : getById db x.id = some x := getById_of_mem_nodup db x hN hx
    rw [hid, hgot] at hx2
    have hsx : s = x := Option.some.inj hx2
    rw [← hsx, hinact] at hact
    exact Bool.noConfusion hact
  · have hne : ∀ x ∈ db.filter (fun s2 => s2.is_active), x.id ≠ s.id := by
      intro x hx he
      obtain ⟨hxdb, hxact⟩ := List.mem_filter.mp hx
      have hx2 : getById db x.id = some x :=
        getById_of_mem_nodup db x hN hxdb
      rw [he, hgot] at hx2
      have hsx : s = x := Option.some.inj hx2
      rw [← hsx, hinact] at hxact
      exact Bool.noConfusion hxact
    unfold check_pending_actions
    rw [foldl_processOne_db_ne env now _ _ _ _ hne]
    exact hgot

/-- Witness for C9: a single inactive schedule is untouched by the sweep. -/
theorem C9_inactive_untouched_witness :
    schedInactive.id ∉
      (check_pending_actions envW 3600 [schedInactive]).1.started ∧
    schedInactive.id ∉
      (check_pending_actions envW 3600 [schedInactive]).1.stopped ∧
    getById (check_pending_actions envW 3600 [schedInactive]).2
        schedInactive.id = some schedInactive :=
  C9_inactive_untouched envW 3600 [schedInactive] schedInactive
    (List.mem_singleton.mpr rfl) rfl (by decide)

/-! ### Claim C10 -/

/-- C10: within one sweep iteration, the stop decision and the stop request
are evaluated against the schedule record as loaded at the start of the
sweep: the whole iteration is invariant under changing the environment's
stop behaviour at every handle other than the loaded
`last_instance_id` — in particular at the handle persisted by this very
iteration's start action — so the instance created by this sweep's start
can never be stopped within the same sweep. -/
theorem C10_stop_uses_loaded_handle (env : Env)
    (f : Int → Except String Bool) (now : Int) (out : Outcome)
    (db : List Schedule) (s : Schedule)
    (hagree : ∀ iid, s.last_instance_id = some iid →
      f iid = env.stop_instance iid) :
    processOne { env with stop_instance := f } now (out, db) s =
      processOne env now (out, db) s := by
  have h1 : should_start { env with stop_instance := f } s now =
      should_start env s now := rfl
  have h2 : should_stop { env with stop_instance := f } s now =
      should_stop env s now := rfl
  have h3 : ∀ db2, start_instance { env with stop_instance := f } db2 s now
      = start_instance env db2 s now := fun _ => rfl
  have h4 : ∀ db2, stop_instance { env with stop_instance := f } db2 s now
      = stop_instance env db2 s now := by
    intro db2
    unfold stop_instance
    cases hli : s.last_instance_id with
    | none => rfl
    | some iid =>
      dsimp only
      rw [hagree iid hli]
  unfold processOne
  simp only [h1, h2, h3, h4]

/-- Witness for C10: the stop behaviour at handle 7 (the instance the
iteration's start creates) is irrelevant to the iteration. -/
theorem C10_stop_uses_loaded_handle_witness :
    processOne { envProbeErr with
        stop_instance := fun i =>
          if i = 5 then Except.ok true else Except.error "never" }
        3600 ({ started := [], stopped := [] }, [schedTracking])
        schedTracking =
      processOne envProbeErr 3600
        ({ started := [], stopped := [] }, [schedTracking])
        schedTracking :=
  C10_stop_uses_loaded_handle envProbeErr
    (fun i => if i = 5 then Except.ok true else Except.error "never")
    3600 { started := [], stopped := [] } [schedTracking] schedTracking
    (by
      intro iid hiid
      cases hiid
      rfl)

end GpuProxy
